import Mathlib

/-!
Verification of the SVD peripheral parse/encode engine.

The data model and the operations below are shallow embeddings of the
repository's `src/error.rs` and `src/svd/peripheral.rs`.  Helper code that
the repository uses but whose source is not part of `src/` (the
`elementext` child-accessors, the `Interrupt`, `AddressBlock`,
`RegisterProperties` and `RegisterCluster` entities, and the code generated
by `derive_builder`) is modelled from the specification; each such
definition's doc comment says so explicitly.
-/

/-- The external generic tree node (xmltree `Element`), as described by the
spec's data model: a tag name, an unordered string-to-string attribute
mapping, an ordered child list, and optional text. -/
structure Element where
  name : String
  attributes : List (String × String)
  children : List Element
  text : Option String

/-- `new_element(name, text)` helper from the repository: a childless,
attribute-less element. -/
def new_element (name : String) (text : Option String) : Element :=
  { name := name, attributes := [], children := [], text := text }

/-- xmltree's `Element::get_child`: the first child carrying the given tag
name. -/
def getChild (tree : Element) (k : String) : Option Element :=
  tree.children.find? (fun c => c.name == k)

/-- Attribute lookup (`HashMap::get`) on the attribute association list. -/
def lookupAttr (attrs : List (String × String)) (k : String) : Option String :=
  (attrs.find? (fun p => p.1 == k)).map (fun p => p.2)

/-- A tree with one extra child appended at the end. -/
def addChild (tree c : Element) : Element :=
  { tree with children := tree.children ++ [c] }

/- ## Error types, embedded from `src/error.rs`. -/

/-- `core::str::ParseBoolError` is a fieldless unit struct. -/
structure ParseBoolError where

/-- `ParseError` from `src/error.rs`. -/
inductive ParseError where
  | EmptyTag (elem : Element) (tag : String)
  | MissingTag (elem : Element) (tag : String)
  | NameMismatch (elem : Element)
  | NotExpectedTag (elem : Element) (tag : String)
  | InvalidBooleanValue (elem : Element) (s : String) (err : ParseBoolError)
  | Other (elem : Element)

/-- `BuildError` from `src/error.rs`. -/
inductive BuildError where
  | Uninitialized (field : String)

/-- `AccessTypeError` from `src/error.rs`. -/
inductive AccessTypeError where
  | Unknown (elem : Element) (s : String)

/-- `InvalidBitRange` from `src/error.rs`. -/
inductive InvalidBitRange where
  | Syntax
  | ParseError
  | MsbLsb

/-- `BitRangeError` from `src/error.rs`. -/
inductive BitRangeError where
  | Invalid (elem : Element) (r : InvalidBitRange)

/-- `EndianError` from `src/error.rs`: its `Unknown` variant carries only
the offending string. -/
inductive EndianError where
  | Unknown (s : String)

/-- `ModifiedWriteValuesError` from `src/error.rs`. -/
inductive ModifiedWriteValuesError where
  | Invalid (elem : Element) (s : String)

/-- `RegisterClusterError` from `src/error.rs`. -/
inductive RegisterClusterError where
  | Invalid (elem : Element) (s : String)

/-- `UsageVariantError` from `src/error.rs`. -/
inductive UsageVariantError where
  | Unknown (elem : Element)

/-- `WriteConstraintError` from `src/error.rs`. -/
inductive WriteConstraintError where
  | Unknown (elem : Element)
  | MoreThanOne (elem : Element)

/-- `NameError` from `src/error.rs`: its `Invalid` variant carries only the
offending string. -/
inductive NameError where
  | Invalid (s : String)

/-- The `anyhow::Error` carrier: one of the typed error kinds above, or a
context wrapper (`anyhow::Context::with_context`) around an inner error. -/
inductive SvdError where
  | parse (e : ParseError)
  | build (e : BuildError)
  | access (e : AccessTypeError)
  | bitRange (e : BitRangeError)
  | endian (e : EndianError)
  | modifiedWrite (e : ModifiedWriteValuesError)
  | regCluster (e : RegisterClusterError)
  | usage (e : UsageVariantError)
  | writeConstraint (e : WriteConstraintError)
  | nameErr (e : NameError)
  | context (msg : String) (inner : SvdError)

/-- Strip every context wrapper, recovering the root error value
(`anyhow::Error::root_cause`). -/
def SvdError.root : SvdError → SvdError
  | .context _ e => e.root
  | e => e

/- ## The element payload each error variant carries (for C2). -/

/-- The `Element` component of a `ParseError` value. -/
def ParseError.offending : ParseError → Option Element
  | .EmptyTag e _ => some e
  | .MissingTag e _ => some e
  | .NameMismatch e => some e
  | .NotExpectedTag e _ => some e
  | .InvalidBooleanValue e _ _ => some e
  | .Other e => some e

/-- The `Element` component of an `AccessTypeError` value. -/
def AccessTypeError.offending : AccessTypeError → Option Element
  | .Unknown e _ => some e

/-- The `Element` component of a `BitRangeError` value. -/
def BitRangeError.offending : BitRangeError → Option Element
  | .Invalid e _ => some e

/-- The `Element` component of an `EndianError` value: its only variant
`Unknown(String)` has no `Element` field. -/
def EndianError.offending : EndianError → Option Element
  | .Unknown _ => none

/-- The `Element` component of a `ModifiedWriteValuesError` value. -/
def ModifiedWriteValuesError.offending : ModifiedWriteValuesError → Option Element
  | .Invalid e _ => some e

/-- The `Element` component of a `UsageVariantError` value. -/
def UsageVariantError.offending : UsageVariantError → Option Element
  | .Unknown e => some e

/-- The `Element` component of a `WriteConstraintError` value. -/
def WriteConstraintError.offending : WriteConstraintError → Option Element
  | .Unknown e => some e
  | .MoreThanOne e => some e

/-- The `Element` component of a `NameError` value: its only variant
`Invalid(String)` has no `Element` field. -/
def NameError.offending : NameError → Option Element
  | .Invalid _ => none

/- ## Name grammar validator, embedded from `src/error.rs`. -/

/-- Rust's `char::is_ascii_alphabetic`. -/
def is_ascii_alphabetic (c : Char) : Bool :=
  (97 ≤ c.toNat && c.toNat ≤ 122) || (65 ≤ c.toNat && c.toNat ≤ 90)

/-- Rust's `char::is_ascii_digit`. -/
def is_ascii_digit (c : Char) : Bool :=
  48 ≤ c.toNat && c.toNat ≤ 57

/-- Rust's `char::is_ascii_alphanumeric`. -/
def is_ascii_alphanumeric (c : Char) : Bool :=
  is_ascii_alphabetic c || is_ascii_digit c

/-- `is_valid_name` from `src/error.rs`: first char must be an ASCII letter
or underscore, every later char an ASCII alphanumeric or underscore; the
empty string is invalid. -/
def is_valid_name (name : String) : Bool :=
  match name.data with
  | [] => false
  | first :: rest =>
    (is_ascii_alphabetic first || first == '_') &&
      rest.all (fun c => is_ascii_alphanumeric c || c == '_')

/-- `check_name` from `src/error.rs`: `Ok(())` on a valid name, otherwise
`NameError::Invalid` carrying the original string. -/
def check_name (name : String) : Except NameError Unit :=
  if is_valid_name name then .ok () else .error (NameError.Invalid name)

/- ## Numeric literal grammar.
Modelled from the spec: the `elementext`/`parse` helpers are not part of
`src/`; the spec's external-interface section fixes the grammar as decimal,
`0x`/`0X`-prefixed hexadecimal with case-insensitive digits, and
`#`-prefixed binary, parsed into `u32` with no silent truncation. -/

/-- The numeric value of one digit character, if it is a digit of the given
radix (hex digits are case-insensitive). -/
def digitVal (radix : Nat) (c : Char) : Option Nat :=
  let v :=
    if 48 ≤ c.toNat && c.toNat ≤ 57 then some (c.toNat - 48)
    else if 97 ≤ c.toNat && c.toNat ≤ 102 then some (c.toNat - 87)
    else if 65 ≤ c.toNat && c.toNat ≤ 70 then some (c.toNat - 55)
    else none
  match v with
  | some d => if d < radix then some d else none
  | none => none

/-- Accumulating fold over the remaining digit characters. -/
def parseRadixGo (radix acc : Nat) : List Char → Option Nat
  | [] => some acc
  | c :: cs =>
    match digitVal radix c with
    | none => none
    | some d => parseRadixGo radix (acc * radix + d) cs

/-- Fold a digit string in the given radix; fails on the empty string and
on any non-digit character. -/
def parseRadix (radix : Nat) : List Char → Option Nat
  | [] => none
  | c :: cs =>
    match digitVal radix c with
    | none => none
    | some d => parseRadixGo radix d cs

/-- Modelled from the spec: the numeric literal grammar for `u32` fields —
decimal, `0x`/`0X` hex, `#` binary; values that do not fit in 32 bits are
rejected, never truncated. -/
def parse_u32 (s : String) : Option Nat :=
  let v :=
    match s.data with
    | '0' :: 'x' :: rest => parseRadix 16 rest
    | '0' :: 'X' :: rest => parseRadix 16 rest
    | '#' :: rest => parseRadix 2 rest
    | cs => parseRadix 10 cs
  match v with
  | some n => if n < 2 ^ 32 then some n else none
  | none => none

/- ## `elementext` child accessors.
Modelled from the spec: `src/` holds only their call sites; the spec says a
required child's text is extracted with `MissingTag`/`EmptyTag` errors when
the child is absent or blank, and optional children are extracted as
`Option` values. -/

/-- Modelled from the spec: `ElementExt::get_child_text` — the text of the
required child tagged `k`; `MissingTag` when no such child exists,
`EmptyTag` when it has no (or blank) text. -/
def get_child_text (tree : Element) (k : String) : Except SvdError String :=
  match getChild tree k with
  | none => .error (.parse (.MissingTag tree k))
  | some c =>
    match c.text with
    | none => .error (.parse (.EmptyTag tree k))
    | some s => if s = "" then .error (.parse (.EmptyTag tree k)) else .ok s

/-- Modelled from the spec: `ElementExt::get_child_text_opt` — the text of
the optional child tagged `k`, `none` when the child is absent. -/
def get_child_text_opt (tree : Element) (k : String) : Option String :=
  (getChild tree k).bind Element.text

/-- Modelled from the spec: `ElementExt::get_child_u32` — the required
child's text parsed through the numeric literal grammar. -/
def get_child_u32 (tree : Element) (k : String) : Except SvdError Nat :=
  match get_child_text tree k with
  | .error e => .error e
  | .ok s =>
    match parse_u32 s with
    | some v => .ok v
    | none => .error (.parse (.Other tree))

/-- Modelled from the spec: an optional `u32` child — absent is `none`, a
present child must parse through the numeric literal grammar. -/
def get_child_u32_opt (tree : Element) (k : String) : Except SvdError (Option Nat) :=
  match getChild tree k with
  | none => .ok none
  | some c =>
    match parse_u32 (c.text.getD "") with
    | some v => .ok (some v)
    | none => .error (.parse (.Other c))

/- ## Sub-entities of `Peripheral`.
Modelled from the spec: their defining modules are not part of `src/`. -/

/-- The closed access-type enumeration (spec section 4.4). -/
inductive AccessType where
  | ReadOnly
  | WriteOnly
  | ReadWrite
  | WriteOnce
  | ReadWriteOnce

/-- Modelled from the spec: the access-type enumeration parser — an
exhaustive match over the five schema literals, anything else is
`AccessTypeError::Unknown` carrying the offending node and string. -/
def AccessType.parseStr (elem : Element) (s : String) : Except SvdError AccessType :=
  match s with
  | "read-only" => .ok .ReadOnly
  | "write-only" => .ok .WriteOnly
  | "read-write" => .ok .ReadWrite
  | "writeOnce" => .ok .WriteOnce
  | "read-writeOnce" => .ok .ReadWriteOnce
  | _ => .error (.access (.Unknown elem s))

/-- Modelled from the spec: the fixed schema string of each access type. -/
def AccessType.encodeStr : AccessType → String
  | .ReadOnly => "read-only"
  | .WriteOnly => "write-only"
  | .ReadWrite => "read-write"
  | .WriteOnce => "writeOnce"
  | .ReadWriteOnce => "read-writeOnce"

/-- `RegisterProperties` (spec section 3): five independently optional
fields. -/
structure RegisterProperties where
  size : Option Nat := none
  access : Option AccessType := none
  protection : Option String := none
  reset_value : Option Nat := none
  reset_mask : Option Nat := none

/-- Modelled from the spec: the optional `access` child of a node, parsed
through the closed enumeration. -/
def parse_access_opt (tree : Element) : Except SvdError (Option AccessType) :=
  match getChild tree "access" with
  | none => .ok none
  | some c =>
    match AccessType.parseStr c (c.text.getD "") with
    | .error e => .error e
    | .ok a => .ok (some a)

/-- Modelled from the spec: `RegisterProperties::parse` reads the five
optional property children directly off the given node. -/
def RegisterProperties.parse (tree : Element) : Except SvdError RegisterProperties :=
  match get_child_u32_opt tree "size" with
  | .error e => .error e
  | .ok size =>
  match parse_access_opt tree with
  | .error e => .error e
  | .ok access =>
  match get_child_u32_opt tree "resetValue" with
  | .error e => .error e
  | .ok reset_value =>
  match get_child_u32_opt tree "resetMask" with
  | .error e => .error e
  | .ok reset_mask =>
    .ok { size := size, access := access,
          protection := get_child_text_opt tree "protection",
          reset_value := reset_value, reset_mask := reset_mask }

/-- Minimal lowercase hexadecimal digit string of a number. -/
def hexString (n : Nat) : String :=
  String.mk (Nat.toDigits 16 n)

/-- Modelled from the spec: `RegisterProperties::encode` emits one child
per present field, in schema order. -/
def RegisterProperties.encode (p : RegisterProperties) : List Element :=
  (match p.size with
   | some v => [new_element "size" (some (toString v))]
   | none => []) ++
  (match p.access with
   | some a => [new_element "access" (some a.encodeStr)]
   | none => []) ++
  (match p.protection with
   | some s => [new_element "protection" (some s)]
   | none => []) ++
  (match p.reset_value with
   | some v => [new_element "resetValue" (some ("0x" ++ hexString v))]
   | none => []) ++
  (match p.reset_mask with
   | some v => [new_element "resetMask" (some ("0x" ++ hexString v))]
   | none => [])

/-- `AddressBlock` (spec section 3): a flat record. -/
structure AddressBlock where
  offset : Nat
  size : Nat
  usage : String

/-- Modelled from the spec: `AddressBlock::parse` reads the three required
children of an `addressBlock` node. -/
def AddressBlock.parse (tree : Element) : Except SvdError AddressBlock :=
  match get_child_u32 tree "offset" with
  | .error e => .error e
  | .ok offset =>
  match get_child_u32 tree "size" with
  | .error e => .error e
  | .ok size =>
  match get_child_text tree "usage" with
  | .error e => .error e
  | .ok usage => .ok { offset := offset, size := size, usage := usage }

/-- Modelled from the spec: `AddressBlock::encode`. -/
def AddressBlock.encode (a : AddressBlock) : Element :=
  { name := "addressBlock", attributes := [],
    children :=
      [new_element "offset" (some ("0x" ++ hexString a.offset)),
       new_element "size" (some ("0x" ++ hexString a.size)),
       new_element "usage" (some a.usage)],
    text := none }

/-- Modelled from the spec: `parse::optional::<AddressBlock>` — parse the
child tagged `addressBlock` when present. -/
def parse_optional_address_block (tree : Element) : Except SvdError (Option AddressBlock) :=
  match getChild tree "addressBlock" with
  | none => .ok none
  | some c =>
    match AddressBlock.parse c with
    | .error e => .error e
    | .ok a => .ok (some a)

/-- `Interrupt` (spec section 3): a flat record. -/
structure Interrupt where
  name : String
  description : Option String
  value : Nat

/-- Modelled from the spec: `Interrupt::parse` reads the required `name`
and `value` children and the optional `description`. -/
def Interrupt.parse (tree : Element) : Except SvdError Interrupt :=
  match get_child_text tree "name" with
  | .error e => .error e
  | .ok name =>
  match get_child_u32 tree "value" with
  | .error e => .error e
  | .ok value =>
    .ok { name := name, description := get_child_text_opt tree "description",
          value := value }

/-- Modelled from the spec: `Interrupt::encode`. -/
def Interrupt.encode (i : Interrupt) : Element :=
  { name := "interrupt", attributes := [],
    children :=
      [new_element "name" (some i.name)] ++
      (match i.description with
       | some d => [new_element "description" (some d)]
       | none => []) ++
      [new_element "value" (some (toString i.value))],
    text := none }

/- ## Register/cluster tree.
Modelled from the spec: the `register`/`cluster` modules are not part of
`src/`; the spec fixes the dispatch — classification by tag name alone,
`RegisterClusterError::Invalid` for any other tag — and the recursive
containment of clusters.  Only the identifying fields are modelled. -/

/-- The `RegisterCluster` tagged union: a register, or a cluster owning a
nested ordered sequence of register-clusters. -/
inductive RegisterCluster where
  | register (name : String) (address_offset : Nat)
  | cluster (name : String) (clusterChildren : List RegisterCluster)

mutual

/-- Modelled from the spec: `RegisterCluster::parse` — dispatch on the tag
name alone; a `cluster` recursively parses every child. -/
def RegisterCluster.parseE (e : Element) : Except SvdError RegisterCluster :=
  if e.name = "register" then
    match get_child_text e "name" with
    | .error err => .error err
    | .ok n =>
      match get_child_u32 e "addressOffset" with
      | .error err => .error err
      | .ok a => .ok (.register n a)
  else if e.name = "cluster" then
    match get_child_text e "name" with
    | .error err => .error err
    | .ok n =>
      match RegisterCluster.parseList e.children with
      | .error err => .error err
      | .ok cs => .ok (.cluster n cs)
  else .error (.regCluster (.Invalid e e.name))
termination_by sizeOf e
decreasing_by cases e; simp only [Element.mk.sizeOf_spec]; omega

/-- First-error collection of a list of register-cluster nodes
(`collect::<Result<Vec<_>, _>>()`). -/
def RegisterCluster.parseList (l : List Element) : Except SvdError (List RegisterCluster) :=
  match l with
  | [] => .ok []
  | c :: cs =>
    match RegisterCluster.parseE c with
    | .error err => .error err
    | .ok r =>
      match RegisterCluster.parseList cs with
      | .error err => .error err
      | .ok rs => .ok (r :: rs)
termination_by sizeOf l
decreasing_by all_goals (simp only [List.cons.sizeOf_spec]; omega)

end

mutual

/-- Modelled from the spec: `RegisterCluster::encode`. -/
def RegisterCluster.encodeE (rc : RegisterCluster) : Element :=
  match rc with
  | .register n a =>
    { name := "register", attributes := [],
      children := [new_element "name" (some n),
                   new_element "addressOffset" (some ("0x" ++ hexString a))],
      text := none }
  | .cluster n cs =>
    { name := "cluster", attributes := [],
      children := new_element "name" (some n) :: RegisterCluster.encodeList cs,
      text := none }

/-- Encode a list of register-clusters in order. -/
def RegisterCluster.encodeList : List RegisterCluster → List Element
  | [] => []
  | c :: cs => RegisterCluster.encodeE c :: RegisterCluster.encodeList cs

end

/- ## `Peripheral`, embedded from `src/svd/peripheral.rs`. -/

/-- The `Peripheral` struct from `src/svd/peripheral.rs`; `base_address` is
the `u32` field, held as a `Nat` (the parser rejects values outside 32
bits). -/
structure Peripheral where
  name : String
  version : Option String
  display_name : Option String
  group_name : Option String
  description : Option String
  base_address : Nat
  address_block : Option AddressBlock
  interrupt : List Interrupt
  default_register_properties : RegisterProperties
  registers : Option (List RegisterCluster)
  derived_from : Option String

/-- Modelled from the spec: the builder that `derive_builder` generates for
`Peripheral` — one `Option` slot per field; fields marked
`#[builder(default)]` in `src/svd/peripheral.rs` fall back to their default
when unset, the unmarked `name` and `base_address` are required. -/
structure PeripheralBuilder where
  name : Option String := none
  version : Option (Option String) := none
  display_name : Option (Option String) := none
  group_name : Option (Option String) := none
  description : Option (Option String) := none
  base_address : Option Nat := none
  address_block : Option (Option AddressBlock) := none
  interrupt : Option (List Interrupt) := none
  default_register_properties : Option RegisterProperties := none
  registers : Option (Option (List RegisterCluster)) := none
  derived_from : Option (Option String) := none

/-- The all-unset builder (`PeripheralBuilder::default()`). -/
def PeripheralBuilder.default : PeripheralBuilder := {}

/-- Modelled from the spec: the generated `PeripheralBuilder::build` —
fields are assembled in declaration order; a defaulted slot never fails, so
the first unset required slot in declaration order (`name`, then
`base_address`) aborts the build with `BuildError::Uninitialized` naming
that one field. -/
def PeripheralBuilder.build (b : PeripheralBuilder) : Except BuildError Peripheral :=
  match b.name with
  | none => .error (.Uninitialized "name")
  | some name =>
    match b.base_address with
    | none => .error (.Uninitialized "base_address")
    | some base_address =>
      .ok { name := name,
            version := b.version.getD none,
            display_name := b.display_name.getD none,
            group_name := b.group_name.getD none,
            description := b.description.getD none,
            base_address := base_address,
            address_block := b.address_block.getD none,
            interrupt := b.interrupt.getD [],
            default_register_properties := b.default_register_properties.getD {},
            registers := b.registers.getD none,
            derived_from := b.derived_from.getD none }

/-- The interrupt-collection loop of `Peripheral::_parse`: parse each
already-filtered `interrupt` child in order, wrapping the first failure
with its zero-based position in a "Parsing interrupt" context
(`with_context`); `idx` is the position of the list head. -/
def parseInterruptsFrom (idx : Nat) : List Element → Except SvdError (List Interrupt)
  | [] => .ok []
  | c :: cs =>
    match Interrupt.parse c with
    | .error err => .error (.context ("Parsing interrupt #" ++ toString idx) err)
    | .ok i =>
      match parseInterruptsFrom (idx + 1) cs with
      | .error err => .error err
      | .ok is => .ok (i :: is)

/-- The interrupt collection of `Peripheral::_parse` (lines 92-101):
children are filtered by tag name `interrupt`, then enumerated and parsed. -/
def parseInterrupts (tree : Element) : Except SvdError (List Interrupt) :=
  parseInterruptsFrom 0 (tree.children.filter (fun t => t.name == "interrupt"))

/-- The registers branch of `Peripheral::_parse` (lines 103-112): absent
`<registers>` is `None`; a present one parses every child, `Some` of the
collected list. -/
def parseRegisters (tree : Element) : Except SvdError (Option (List RegisterCluster)) :=
  match getChild tree "registers" with
  | none => .ok none
  | some registers =>
    match RegisterCluster.parseList registers.children with
    | .error err => .error err
    | .ok rs => .ok (some rs)

/-- `Peripheral::_parse` from `src/svd/peripheral.rs`: the builder chain is
evaluated in source order, each fallible step aborting the whole parse; the
final `build()` error is wrapped into the `anyhow` carrier (`map_err`). -/
def Peripheral._parse (tree : Element) (name : String) : Except SvdError Peripheral :=
  match get_child_u32 tree "baseAddress" with
  | .error e => .error e
  | .ok base_address =>
  match parse_optional_address_block tree with
  | .error e => .error e
  | .ok address_block =>
  match parseInterrupts tree with
  | .error e => .error e
  | .ok interrupt =>
  match RegisterProperties.parse tree with
  | .error e => .error e
  | .ok default_register_properties =>
  match parseRegisters tree with
  | .error e => .error e
  | .ok registers =>
    match PeripheralBuilder.build
      { name := some name,
        version := some (get_child_text_opt tree "version"),
        display_name := some (get_child_text_opt tree "displayName"),
        group_name := some (get_child_text_opt tree "groupName"),
        description := some (get_child_text_opt tree "description"),
        base_address := some base_address,
        address_block := some address_block,
        interrupt := some interrupt,
        default_register_properties := some default_register_properties,
        registers := some registers,
        derived_from := some (lookupAttr tree.attributes "derivedFrom") } with
    | .error e => .error (.build e)
    | .ok p => .ok p

/-- `Peripheral::parse` (the `Parse` impl, lines 73-79): tag check, then
the required `name` child, then `_parse` with its failure wrapped in the
"In peripheral" context. -/
def Peripheral.parse (tree : Element) : Except SvdError Peripheral :=
  if tree.name = "peripheral" then
    match get_child_text tree "name" with
    | .error e => .error e
    | .ok name =>
      match Peripheral._parse tree name with
      | .error e => .error (.context ("In peripheral `" ++ name ++ "`") e)
      | .ok p => .ok p
  else .error (.parse (.NotExpectedTag tree "peripheral"))

/-- The text `format!("0x{...}", base_address)` produces at line 152 of
`src/svd/peripheral.rs`.  The source's format spec `:.08x` sets a
*precision* of 8, and Rust's formatter ignores precision for integral
types, so the output is the minimal-width lowercase hexadecimal rendering
with a `0x` prefix — not a zero-padded fixed-width one. -/
def formatBaseAddress (v : Nat) : String :=
  "0x" ++ hexString v

/-- `Peripheral::encode` from `src/svd/peripheral.rs` (lines 123-186):
children in source order — name, the four optional strings, baseAddress,
the register-properties children, the optional address block, the
interrupts, the optional registers node — and the `derivedFrom` attribute
inserted into the initially empty attribute map when present.  The
sub-entity encodes are modelled as total, so the `Result` wrapper of the
source is always `Ok` and is dropped here. -/
def Peripheral.encode (p : Peripheral) : Element :=
  { name := "peripheral",
    attributes :=
      match p.derived_from with
      | some v => [("derivedFrom", v)]
      | none => [],
    children :=
      [new_element "name" (some p.name)] ++
      (match p.version with
       | some v => [new_element "version" (some v)]
       | none => []) ++
      (match p.display_name with
       | some v => [new_element "displayName" (some v)]
       | none => []) ++
      (match p.group_name with
       | some v => [new_element "groupName" (some v)]
       | none => []) ++
      (match p.description with
       | some v => [new_element "description" (some v)]
       | none => []) ++
      [new_element "baseAddress" (some (formatBaseAddress p.base_address))] ++
      RegisterProperties.encode p.default_register_properties ++
      (match p.address_block with
       | some v => [AddressBlock.encode v]
       | none => []) ++
      p.interrupt.map Interrupt.encode ++
      (match p.registers with
       | some v =>
         [{ name := "registers", attributes := [],
            children := RegisterCluster.encodeList v, text := none }]
       | none => []),
    text := none }

/- ## Example values used by witnesses. -/

/-- A well-formed `<peripheral>` node: name, a hex base address, a
`derivedFrom` attribute, no `<registers>` node. -/
def exTree1 : Element :=
  { name := "peripheral", attributes := [("derivedFrom", "OTHER")],
    children := [new_element "name" (some "TIMER0"),
                 new_element "baseAddress" (some "0x40000000")],
    text := none }

/-- The peripheral `exTree1` parses to. -/
def exPeriph1 : Peripheral :=
  { name := "TIMER0", version := none, display_name := none, group_name := none,
    description := none, base_address := 1073741824, address_block := none,
    interrupt := [], default_register_properties := {}, registers := none,
    derived_from := some "OTHER" }

/-- A peripheral whose `base_address` is 16, exposing the missing
zero-padding of the encoder. -/
def peripheral16 : Peripheral :=
  { name := "P0", version := none, display_name := none, group_name := none,
    description := none, base_address := 16, address_block := none, interrupt := [],
    default_register_properties := {}, registers := none, derived_from := none }

/- ## C1 -/

/-- C1: the claim says the encoded `<baseAddress>` text is a *fixed-width,
zero-padded* hexadecimal rendering of `base_address`.  The source writes
`format!("0x{...:.08x}")` whose `.08` is a precision, which Rust's
formatter ignores for integers; at `base_address = 16` the emitted text is
the minimal-width `"0x10"`, not the fixed-width `"0x00000010"` the claim
(and the spec's canonicalization note) require. -/
theorem base_address_encoded_without_zero_padding :
  getChild (Peripheral.encode peripheral16) "baseAddress"
      = some (new_element "baseAddress" (some "0x10")) ∧
  formatBaseAddress 16 = "0x10" ∧ "0x10" ≠ "0x00000010" :=
  ⟨by rfl, by rfl, by decide⟩

/- ## C2 -/

/-- C2 counterexample: two of the error kinds the claim lists carry no
`Element` component at all — `EndianError::Unknown` and
`NameError::Invalid` hold only the offending string, so the failing node
cannot be reproduced from those errors alone. -/
theorem endian_and_name_errors_lack_element :
  EndianError.offending (EndianError.Unknown "little") = none ∧
  NameError.offending (NameError.Invalid "1bad") = none :=
  ⟨rfl, rfl⟩

/-- C2 (amended): every value of `ParseError`, `AccessTypeError`,
`BitRangeError`, `ModifiedWriteValuesError` and `UsageVariantError` carries
the offending `Element`; the two exceptions are `EndianError::Unknown` and
`NameError::Invalid`, which carry only the offending string. -/
theorem error_kinds_element_payload :
  (∀ e : ParseError, e.offending.isSome = true) ∧
  (∀ e : AccessTypeError, e.offending.isSome = true) ∧
  (∀ e : BitRangeError, e.offending.isSome = true) ∧
  (∀ e : ModifiedWriteValuesError, e.offending.isSome = true) ∧
  (∀ e : UsageVariantError, e.offending.isSome = true) ∧
  (∀ e : EndianError, e.offending = none) ∧
  (∀ e : NameError, e.offending = none) :=
  ⟨fun e => by cases e <;> rfl,
   fun e => by cases e; rfl,
   fun e => by cases e; rfl,
   fun e => by cases e; rfl,
   fun e => by cases e; rfl,
   fun e => by cases e; rfl,
   fun e => by cases e; rfl⟩

/- ## C4 -/

/-- The name grammar exactly as the spec states it: non-empty, first
character an ASCII letter or underscore, every subsequent character an
ASCII alphanumeric or underscore. -/
def spec_valid_name (s : String) : Prop :=
  match s.data with
  | [] => False
  | first :: rest =>
    (is_ascii_alphabetic first = true ∨ first = '_') ∧
      ∀ c ∈ rest, is_ascii_alphanumeric c = true ∨ c = '_'

instance (s : String) : Decidable (spec_valid_name s) := by
  unfold spec_valid_name
  generalize s.data = l
  cases l <;> dsimp <;> infer_instance

/-- `is_valid_name` agrees with the spec's grammar. -/
theorem is_valid_name_iff (s : String) : is_valid_name s = true ↔ spec_valid_name s := by
  unfold is_valid_name spec_valid_name
  generalize s.data = l
  cases l with
  | nil => simp
  | cons c cs =>
    simp [List.all_eq_true]

/-- C4: `check_name` succeeds exactly on the strings matched by the spec's
name grammar, and on every other string it fails with
`NameError::Invalid` carrying the original string unmodified. -/
theorem check_name_iff_grammar :
  ∀ s : String,
    (check_name s = .ok () ↔ spec_valid_name s) ∧
    (¬ spec_valid_name s → check_name s = .error (NameError.Invalid s)) := by
  intro s
  by_cases hv : is_valid_name s = true
  · have hs := (is_valid_name_iff s).mp hv
    exact ⟨by simp [check_name, hv, hs], fun hns => absurd hs hns⟩
  · have hs : ¬ spec_valid_name s := fun hh => hv ((is_valid_name_iff s).mpr hh)
    constructor
    · simp [check_name, hv, hs]
    · intro _
      simp [check_name, hv]

/-- C4 witness: the grammar and both branches of `check_name` at concrete
strings. -/
theorem check_name_iff_grammar_witness :
  check_name "_TIMER0" = .ok () ∧
  check_name "1bad" = .error (NameError.Invalid "1bad") ∧
  check_name "" = .error (NameError.Invalid "") :=
  ⟨(check_name_iff_grammar "_TIMER0").1.mpr (by decide),
   (check_name_iff_grammar "1bad").2 (by decide),
   (check_name_iff_grammar "").2 (by decide)⟩

/- ## C7 -/

/-- C7: a `build()` call on any slot assignment fails with `Uninitialized`
naming exactly the first missing required field in declaration order —
`name` before `base_address` — and succeeds, assembling the entity, when
both required fields are set. -/
theorem build_reports_first_missing_required :
  ∀ b : PeripheralBuilder,
    (b.name = none → b.build = .error (.Uninitialized "name")) ∧
    (∀ n, b.name = some n → b.base_address = none →
       b.build = .error (.Uninitialized "base_address")) ∧
    (∀ n ba, b.name = some n → b.base_address = some ba →
       ∃ p, b.build = .ok p ∧ p.name = n ∧ p.base_address = ba) := by
  intro b
  refine ⟨fun h => by simp [PeripheralBuilder.build, h],
          fun n hn hba => by simp [PeripheralBuilder.build, hn, hba],
          fun n ba hn hba => ?_⟩
  exact ⟨{ name := n, version := b.version.getD none,
           display_name := b.display_name.getD none,
           group_name := b.group_name.getD none,
           description := b.description.getD none,
           base_address := ba, address_block := b.address_block.getD none,
           interrupt := b.interrupt.getD [],
           default_register_properties := b.default_register_properties.getD {},
           registers := b.registers.getD none,
           derived_from := b.derived_from.getD none },
         by simp [PeripheralBuilder.build, hn, hba], rfl, rfl⟩

/-- C7 witness: the all-unset builder reports `name`; with `name` set it
reports `base_address`; with both set it builds. -/
theorem build_reports_first_missing_required_witness :
  PeripheralBuilder.default.build = .error (.Uninitialized "name") ∧
  ({ PeripheralBuilder.default with name := some "P" } : PeripheralBuilder).build
      = .error (.Uninitialized "base_address") ∧
  ∃ p, ({ PeripheralBuilder.default with
          name := some "P", base_address := some 4096 } : PeripheralBuilder).build
      = .ok p ∧ p.name = "P" ∧ p.base_address = 4096 :=
  ⟨(build_reports_first_missing_required _).1 rfl,
   (build_reports_first_missing_required _).2.1 "P" rfl rfl,
   (build_reports_first_missing_required _).2.2 "P" 4096 rfl rfl⟩

/- ## Characterization of a successful `Peripheral::parse`. -/

/-- If `Peripheral::parse` succeeds, every stage succeeded and the parsed
record is assembled from the stages' results. -/
theorem Peripheral.parse_ok_fields (tree : Element) (p : Peripheral)
    (h : Peripheral.parse tree = .ok p) :
    tree.name = "peripheral" ∧
    ∃ name ba ab ints rp regs,
      get_child_text tree "name" = .ok name ∧
      get_child_u32 tree "baseAddress" = .ok ba ∧
      parse_optional_address_block tree = .ok ab ∧
      parseInterrupts tree = .ok ints ∧
      RegisterProperties.parse tree = .ok rp ∧
      parseRegisters tree = .ok regs ∧
      p = { name := name,
            version := get_child_text_opt tree "version",
            display_name := get_child_text_opt tree "displayName",
            group_name := get_child_text_opt tree "groupName",
            description := get_child_text_opt tree "description",
            base_address := ba, address_block := ab, interrupt := ints,
            default_register_properties := rp, registers := regs,
            derived_from := lookupAttr tree.attributes "derivedFrom" } := by
  unfold Peripheral.parse at h
  split at h
  case isFalse => exact absurd h (by simp)
  case isTrue htag =>
  refine ⟨htag, ?_⟩
  split at h
  next e heq => exact absurd h (by simp)
  next name hname =>
  split at h
  next e heq2 => exact absurd h (by simp)
  next q hq =>
  have hpq : q = p := by injection h
  subst hpq
  unfold Peripheral._parse at hq
  split at hq
  next e h1 => exact absurd hq (by simp)
  next ba hba =>
  split at hq
  next e h2 => exact absurd hq (by simp)
  next ab hab =>
  split at hq
  next e h3 => exact absurd hq (by simp)
  next ints hints =>
  split at hq
  next e h4 => exact absurd hq (by simp)
  next rp hrp =>
  split at hq
  next e h5 => exact absurd hq (by simp)
  next regs hregs =>
  refine ⟨name, ba, ab, ints, rp, regs, hname, hba, hab, hints, hrp, hregs, ?_⟩
  simp only [PeripheralBuilder.build, Option.getD_some] at hq
  injection hq with hq
  exact hq.symm

/-- Converse: when every stage succeeds, `Peripheral::parse` returns the
record assembled from the stages' results. -/
theorem Peripheral.parse_ok_intro (tree : Element) (name : String) (ba : Nat)
    (ab : Option AddressBlock) (ints : List Interrupt) (rp : RegisterProperties)
    (regs : Option (List RegisterCluster))
    (htag : tree.name = "peripheral")
    (hname : get_child_text tree "name" = .ok name)
    (hba : get_child_u32 tree "baseAddress" = .ok ba)
    (hab : parse_optional_address_block tree = .ok ab)
    (hints : parseInterrupts tree = .ok ints)
    (hrp : RegisterProperties.parse tree = .ok rp)
    (hregs : parseRegisters tree = .ok regs) :
    Peripheral.parse tree = .ok
      { name := name,
        version := get_child_text_opt tree "version",
        display_name := get_child_text_opt tree "displayName",
        group_name := get_child_text_opt tree "groupName",
        description := get_child_text_opt tree "description",
        base_address := ba, address_block := ab, interrupt := ints,
        default_register_properties := rp, registers := regs,
        derived_from := lookupAttr tree.attributes "derivedFrom" } := by
  unfold Peripheral.parse Peripheral._parse
  rw [if_pos htag, hname, hba, hab, hints, hrp, hregs]
  simp only [PeripheralBuilder.build, Option.getD_some]

/- ## Encode-side helper lemmas. -/

/-- No child emitted by `RegisterProperties::encode` is tagged
`registers`. -/
theorem find?_registers_rpEncode (rp : RegisterProperties) :
    (RegisterProperties.encode rp).find? (fun c => c.name == "registers") = none := by
  rw [List.find?_eq_none]
  intro e he
  unfold RegisterProperties.encode at he
  simp only [List.mem_append] at he
  rcases he with ((((he | he) | he) | he) | he)
  · cases h : rp.size <;> rw [h] at he <;> simp_all [new_element]
  · cases h : rp.access <;> rw [h] at he <;> simp_all [new_element]
  · cases h : rp.protection <;> rw [h] at he <;> simp_all [new_element]
  · cases h : rp.reset_value <;> rw [h] at he <;> simp_all [new_element]
  · cases h : rp.reset_mask <;> rw [h] at he <;> simp_all [new_element]

/-- No encoded interrupt child is tagged `registers`. -/
theorem find?_registers_interrupts (l : List Interrupt) :
    (l.map Interrupt.encode).find? (fun c => c.name == "registers") = none := by
  rw [List.find?_eq_none]
  intro e he
  rcases List.mem_map.mp he with ⟨i, _, rfl⟩
  simp [Interrupt.encode]

/-- The `registers` child of an encoded peripheral is present exactly when
the `registers` field is `Some`, and then holds the encoded list. -/
theorem getChild_encode_registers (q : Peripheral) :
    getChild (Peripheral.encode q) "registers" =
      match q.registers with
      | some v => some { name := "registers", attributes := [],
                         children := RegisterCluster.encodeList v, text := none }
      | none => none := by
  unfold getChild Peripheral.encode
  simp only [List.find?_append, find?_registers_rpEncode, find?_registers_interrupts]
  cases q.version <;> cases q.display_name <;> cases q.group_name <;>
    cases q.description <;> cases q.address_block <;> cases q.registers <;>
    simp [new_element, AddressBlock.encode]

/-- A `<peripheral>` node with a present-but-empty `<registers>` child. -/
def exTree2 : Element :=
  { name := "peripheral", attributes := [],
    children := [new_element "name" (some "TIMER1"),
                 new_element "baseAddress" (some "1024"),
                 { name := "registers", attributes := [], children := [], text := none }],
    text := none }

/-- The peripheral `exTree2` parses to: `registers = Some([])`. -/
def exPeriph2 : Peripheral :=
  { name := "TIMER1", version := none, display_name := none, group_name := none,
    description := none, base_address := 1024, address_block := none,
    interrupt := [], default_register_properties := {}, registers := some [],
    derived_from := none }

/-- Evaluating the registers branch on `exTree2`. -/
theorem parseRegisters_exTree2 : parseRegisters exTree2 = .ok (some []) := by
  unfold parseRegisters
  have h : getChild exTree2 "registers" =
      some { name := "registers", attributes := [], children := [], text := none } := rfl
  rw [h]
  dsimp only
  rw [RegisterCluster.parseList]

/-- `exTree2` parses successfully to `exPeriph2`. -/
theorem parse_exTree2 : Peripheral.parse exTree2 = .ok exPeriph2 :=
  Peripheral.parse_ok_intro exTree2 "TIMER1" 1024 none [] {} (some [])
    rfl rfl rfl rfl rfl rfl parseRegisters_exTree2

/- ## C3 -/

/-- C3: a `<peripheral>` with no `<registers>` child parses with
`registers = None`, a present-but-empty `<registers>` child parses with
`registers = Some([])`, and on encode a `registers` child element is
emitted exactly when the field is `Some` — so `None` and `Some([])` never
encode to the same tree. -/
theorem registers_absent_vs_empty :
  (∀ tree p, Peripheral.parse tree = .ok p →
     (getChild tree "registers" = none → p.registers = none) ∧
     (∀ r, getChild tree "registers" = some r → r.children = [] →
        p.registers = some [])) ∧
  (∀ q : Peripheral,
     (getChild (Peripheral.encode q) "registers").isSome = q.registers.isSome) := by
  constructor
  · intro tree p h
    obtain ⟨htag, name, ba, ab, ints, rp, regs, hname, hba, hab, hints, hrp, hregs, hp⟩ :=
      Peripheral.parse_ok_fields tree p h
    subst hp
    constructor
    · intro hnone
      unfold parseRegisters at hregs
      rw [hnone] at hregs
      simp at hregs
      simp [← hregs]
    · intro r hr hrc
      unfold parseRegisters at hregs
      rw [hr] at hregs
      simp only [hrc, RegisterCluster.parseList] at hregs
      simp at hregs
      simp [← hregs]
  · intro q
    rw [getChild_encode_registers q]
    cases q.registers <;> simp

/-- C3 witness: `exTree1` (no `<registers>`) parses to `registers = None`,
`exTree2` (empty `<registers>`) parses to `registers = Some([])`. -/
theorem registers_absent_vs_empty_witness :
  exPeriph1.registers = none ∧ exPeriph2.registers = some [] :=
  ⟨(registers_absent_vs_empty.1 exTree1 exPeriph1 (by rfl)).1 (by rfl),
   (registers_absent_vs_empty.1 exTree2 exPeriph2 parse_exTree2).2
     { name := "registers", attributes := [], children := [], text := none }
     (by rfl) rfl⟩

/- ## C9 -/

/-- C9: `derived_from` is read from the `derivedFrom` attribute verbatim
(never from a child element); on encode the attribute is written back
exactly when the field is `Some` — the attribute map is empty otherwise —
and `derived_from` round-trips unchanged through encode-then-parse. -/
theorem derived_from_attribute_roundtrip :
  (∀ tree p, Peripheral.parse tree = .ok p →
     p.derived_from = lookupAttr tree.attributes "derivedFrom") ∧
  (∀ q : Peripheral,
     lookupAttr (Peripheral.encode q).attributes "derivedFrom" = q.derived_from ∧
     (q.derived_from = none → (Peripheral.encode q).attributes = [])) ∧
  (∀ q p, Peripheral.parse (Peripheral.encode q) = .ok p →
     p.derived_from = q.derived_from) := by
  have h1 : ∀ tree p, Peripheral.parse tree = .ok p →
      p.derived_from = lookupAttr tree.attributes "derivedFrom" := by
    intro tree p h
    obtain ⟨htag, name, ba, ab, ints, rp, regs, _, _, _, _, _, _, hp⟩ :=
      Peripheral.parse_ok_fields tree p h
    subst hp; rfl
  have h2 : ∀ q : Peripheral,
      lookupAttr (Peripheral.encode q).attributes "derivedFrom" = q.derived_from := by
    intro q
    cases h : q.derived_from <;> simp [Peripheral.encode, lookupAttr, h]
  refine ⟨h1, fun q => ⟨h2 q, ?_⟩, fun q p h => (h1 _ p h).trans (h2 q)⟩
  intro hnone
  simp [Peripheral.encode, hnone]

/-- C9 witness: the parse and round-trip conjuncts instantiated on the
concrete `exTree1`/`exPeriph1`, whose `derivedFrom` attribute is
`"OTHER"`. -/
theorem derived_from_attribute_roundtrip_witness :
  exPeriph1.derived_from = lookupAttr exTree1.attributes "derivedFrom" ∧
  exPeriph1.derived_from = exPeriph1.derived_from :=
  ⟨derived_from_attribute_roundtrip.1 exTree1 exPeriph1 (by rfl),
   derived_from_attribute_roundtrip.2.2 exPeriph1 exPeriph1 (by rfl)⟩

/- ## C8 -/

/-- C8: a node whose tag is not `peripheral` fails with `NotExpectedTag`
naming `peripheral`; a `peripheral` node with no `<name>` child fails with
`MissingTag` referencing `name`; one whose `<name>` child has no (or blank)
text fails with `EmptyTag` referencing `name`. -/
theorem peripheral_tag_and_name_errors :
  (∀ tree : Element, tree.name ≠ "peripheral" →
     Peripheral.parse tree = .error (.parse (.NotExpectedTag tree "peripheral"))) ∧
  (∀ tree : Element, tree.name = "peripheral" → getChild tree "name" = none →
     Peripheral.parse tree = .error (.parse (.MissingTag tree "name"))) ∧
  (∀ (tree c : Element), tree.name = "peripheral" → getChild tree "name" = some c →
     (c.text = none ∨ c.text = some "") →
     Peripheral.parse tree = .error (.parse (.EmptyTag tree "name"))) := by
  refine ⟨?_, ?_, ?_⟩
  · intro tree h
    unfold Peripheral.parse
    rw [if_neg h]
  · intro tree htag hnone
    unfold Peripheral.parse get_child_text
    rw [if_pos htag]
    simp only [hnone]
  · intro tree c htag hc htext
    unfold Peripheral.parse get_child_text
    rw [if_pos htag]
    rcases htext with h | h <;> simp [hc, h]

/-- A node with the wrong tag. -/
def badTagTree : Element :=
  { name := "periph", attributes := [], children := [], text := none }

/-- A `peripheral` node with no `<name>` child. -/
def noNameTree : Element :=
  { name := "peripheral", attributes := [],
    children := [new_element "baseAddress" (some "16")], text := none }

/-- A `peripheral` node whose `<name>` child has no text. -/
def blankNameTree : Element :=
  { name := "peripheral", attributes := [],
    children := [new_element "name" none], text := none }

/-- C8 witness: the three error shapes at concrete nodes. -/
theorem peripheral_tag_and_name_errors_witness :
  Peripheral.parse badTagTree = .error (.parse (.NotExpectedTag badTagTree "peripheral")) ∧
  Peripheral.parse noNameTree = .error (.parse (.MissingTag noNameTree "name")) ∧
  Peripheral.parse blankNameTree = .error (.parse (.EmptyTag blankNameTree "name")) :=
  ⟨peripheral_tag_and_name_errors.1 badTagTree (by decide),
   peripheral_tag_and_name_errors.2.1 noNameTree rfl rfl,
   peripheral_tag_and_name_errors.2.2 blankNameTree (new_element "name" none) rfl rfl
     (Or.inl rfl)⟩

/- ## C5 -/

/-- C5: whenever the `<name>` child of a `peripheral` node is readable and
the remainder of the parse fails, the failure is propagated wrapped in the
"In peripheral `X`" context, with the underlying error value held intact
inside the wrapper (its root error kind is unchanged). -/
theorem parse_wraps_in_peripheral_context :
  ∀ (tree : Element) (name : String) (e : SvdError),
    tree.name = "peripheral" →
    get_child_text tree "name" = .ok name →
    Peripheral._parse tree name = .error e →
    Peripheral.parse tree =
      .error (.context ("In peripheral `" ++ name ++ "`") e) ∧
    (SvdError.context ("In peripheral `" ++ name ++ "`") e).root = e.root := by
  intro tree name e htag hname hp
  constructor
  · unfold Peripheral.parse
    rw [if_pos htag]
    simp only [hname, hp]
  · rfl

/-- A `peripheral` node with a readable name but no `baseAddress`. -/
def exTree3 : Element :=
  { name := "peripheral", attributes := [],
    children := [new_element "name" (some "UART0")], text := none }

/-- C5 witness: the missing `baseAddress` failure inside `UART0` surfaces
wrapped in the peripheral-name context. -/
theorem parse_wraps_in_peripheral_context_witness :
  Peripheral.parse exTree3 =
    .error (.context ("In peripheral `" ++ "UART0" ++ "`")
      (.parse (.MissingTag exTree3 "baseAddress"))) ∧
  (SvdError.context ("In peripheral `" ++ "UART0" ++ "`")
      (.parse (.MissingTag exTree3 "baseAddress"))).root =
    (SvdError.parse (.MissingTag exTree3 "baseAddress")).root :=
  parse_wraps_in_peripheral_context exTree3 "UART0"
    (.parse (.MissingTag exTree3 "baseAddress")) rfl rfl rfl

/- ## C6 -/

/-- The first failing element of an interrupt list aborts the fold with the
failure wrapped at its zero-based position. -/
theorem parseInterruptsFrom_first_error (pre : List Element) :
  ∀ (idx : Nat) (c : Element) (rest : List Element) (err : SvdError),
    (∀ i ∈ pre, (Interrupt.parse i).isOk = true) →
    Interrupt.parse c = .error err →
    parseInterruptsFrom idx (pre ++ c :: rest) =
      .error (.context ("Parsing interrupt #" ++ toString (idx + pre.length)) err) := by
  induction pre with
  | nil =>
    intro idx c rest err _ herr
    simp [parseInterruptsFrom, herr]
  | cons a as ih =>
    intro idx c rest err hok herr
    have ha : (Interrupt.parse a).isOk = true := hok a (List.mem_cons_self a as)
    obtain ⟨ia, hia⟩ : ∃ x, Interrupt.parse a = .ok x := by
      cases h : Interrupt.parse a
      · rw [h] at ha
        simp [Except.isOk, Except.toBool] at ha
      · exact ⟨_, rfl⟩
    have hrec := ih (idx + 1) c rest err (fun i hi => hok i (List.mem_cons_of_mem a hi)) herr
    rw [List.cons_append]
    unfold parseInterruptsFrom
    simp only [hia, hrec]
    have hlen : idx + 1 + as.length = idx + (a :: as).length := by
      simp [List.length_cons]
      omega
    rw [hlen]

/-- C6: among the children tagged `interrupt`, taken in document order, the
first whose parse fails makes the whole peripheral parse fail with that
error wrapped in "Parsing interrupt #N" — N the child's zero-based index
among the interrupt-tagged children — inside the peripheral-name context;
the failure is not skipped or swallowed. -/
theorem interrupt_first_failure_indexed :
  ∀ (tree : Element) (name : String) (ba : Nat) (ab : Option AddressBlock)
    (pre : List Element) (c : Element) (rest : List Element) (err : SvdError),
    tree.name = "peripheral" →
    get_child_text tree "name" = .ok name →
    get_child_u32 tree "baseAddress" = .ok ba →
    parse_optional_address_block tree = .ok ab →
    tree.children.filter (fun t => t.name == "interrupt") = pre ++ c :: rest →
    (∀ i ∈ pre, (Interrupt.parse i).isOk = true) →
    Interrupt.parse c = .error err →
    Peripheral.parse tree =
      .error (.context ("In peripheral `" ++ name ++ "`")
        (.context ("Parsing interrupt #" ++ toString pre.length) err)) := by
  intro tree name ba ab pre c rest err htag hname hba hab hfil hok herr
  have hint : parseInterrupts tree =
      .error (.context ("Parsing interrupt #" ++ toString pre.length) err) := by
    unfold parseInterrupts
    rw [hfil]
    have h := parseInterruptsFrom_first_error pre 0 c rest err hok herr
    simpa using h
  unfold Peripheral.parse Peripheral._parse
  rw [if_pos htag]
  simp only [hname, hba, hab, hint]

/-- An `interrupt` child with no `<name>` child, so its parse fails. -/
def intBad : Element := new_element "interrupt" (some "x")

/-- A `peripheral` node whose only interrupt child fails to parse. -/
def exTree4 : Element :=
  { name := "peripheral", attributes := [],
    children := [new_element "name" (some "UART1"),
                 new_element "baseAddress" (some "0x0"), intBad],
    text := none }

/-- C6 witness: the failing interrupt at index 0 of `exTree4` surfaces
doubly wrapped. -/
theorem interrupt_first_failure_indexed_witness :
  Peripheral.parse exTree4 =
    .error (.context ("In peripheral `" ++ "UART1" ++ "`")
      (.context ("Parsing interrupt #" ++ toString (0 : Nat))
        (.parse (.MissingTag intBad "name")))) :=
  interrupt_first_failure_indexed exTree4 "UART1" 0 none [] intBad []
    (.parse (.MissingTag intBad "name")) rfl rfl rfl rfl rfl (by simp) rfl

/- ## C10 -/

/-- The child tags `Peripheral::parse` consults: its own field tags, the
interrupt tag, and the register-property tags read off the peripheral
node. -/
def recognizedTags : List String :=
  ["name", "version", "displayName", "groupName", "description", "baseAddress",
   "addressBlock", "interrupt", "registers", "size", "access", "protection",
   "resetValue", "resetMask"]

/-- Appending a child with a different tag leaves `getChild` unchanged. -/
theorem getChild_addChild (t c : Element) (k : String) (h : (c.name == k) = false) :
    getChild (addChild t c) k = getChild t k := by
  unfold getChild addChild
  simp [List.find?_append, List.find?, h]

/-- Trees with the same `k`-child agree on successful `get_child_text`
results (the error payloads may differ, carrying each tree). -/
theorem get_child_text_ok_iff {t' t : Element} {k : String}
    (h : getChild t' k = getChild t k) (s : String) :
    get_child_text t' k = .ok s ↔ get_child_text t k = .ok s := by
  unfold get_child_text
  rw [h]
  cases hg : getChild t k with
  | none => simp
  | some ch =>
    cases ht : ch.text with
    | none => simp [ht]
    | some s' => by_cases hs : s' = "" <;> simp [ht, hs]

/-- Trees with the same `k`-child agree on successful `get_child_u32`
results. -/
theorem get_child_u32_ok_iff {t' t : Element} {k : String}
    (h : getChild t' k = getChild t k) (v : Nat) :
    get_child_u32 t' k = .ok v ↔ get_child_u32 t k = .ok v := by
  unfold get_child_u32
  cases h1 : get_child_text t' k with
  | error e =>
    cases h2 : get_child_text t k with
    | error e2 => simp
    | ok s =>
      exact absurd ((get_child_text_ok_iff h s).mpr h2) (by simp [h1])
  | ok s =>
    have h2 : get_child_text t k = .ok s := (get_child_text_ok_iff h s).mp h1
    rw [h2]
    cases hp : parse_u32 s <;> simp [hp]

/-- A successfully collected register-cluster list means every element
parsed. -/
theorem parseList_ok_forall (l : List Element) :
    ∀ rs, RegisterCluster.parseList l = .ok rs →
      ∀ ch ∈ l, (RegisterCluster.parseE ch).isOk = true := by
  induction l with
  | nil => simp
  | cons a as ih =>
    intro rs h ch hch
    rw [RegisterCluster.parseList] at h
    cases hpa : RegisterCluster.parseE a with
    | error e =>
      rw [hpa] at h
      exact absurd h (by simp)
    | ok r =>
      cases List.mem_cons.mp hch with
      | inl heq => subst heq; simp [hpa, Except.isOk, Except.toBool]
      | inr hmem =>
        cases hpl : RegisterCluster.parseList as with
        | error e =>
          simp only [hpa, hpl] at h
          exact absurd h (by simp)
        | ok rs2 => exact ih rs2 hpl ch hmem

/-- C10: appending a child whose tag is none of the recognized field tags
does not change the outcome of `Peripheral::parse` (unrecognized children
are silently ignored, in particular by the interrupt filter), whereas every
child of a present `<registers>` node must itself parse as a register or
cluster for the peripheral to parse. -/
theorem unrecognized_children_ignored :
  (∀ (tree c : Element) (p : Peripheral), c.name ∉ recognizedTags →
     (Peripheral.parse (addChild tree c) = .ok p ↔ Peripheral.parse tree = .ok p)) ∧
  (∀ (tree : Element) (p : Peripheral) (r : Element),
     Peripheral.parse tree = .ok p → getChild tree "registers" = some r →
     ∀ ch ∈ r.children, (RegisterCluster.parseE ch).isOk = true) := by
  constructor
  · intro tree c p hc
    have hne : ∀ k ∈ recognizedTags, (c.name == k) = false := by
      intro k hk
      simp only [beq_eq_false_iff_ne]
      intro he
      exact hc (he ▸ hk)
    have g_name := getChild_addChild tree c "name" (hne "name" (by decide))
    have g_version := getChild_addChild tree c "version" (hne "version" (by decide))
    have g_dn := getChild_addChild tree c "displayName" (hne "displayName" (by decide))
    have g_gn := getChild_addChild tree c "groupName" (hne "groupName" (by decide))
    have g_desc := getChild_addChild tree c "description" (hne "description" (by decide))
    have g_ba := getChild_addChild tree c "baseAddress" (hne "baseAddress" (by decide))
    have g_ab := getChild_addChild tree c "addressBlock" (hne "addressBlock" (by decide))
    have g_regs := getChild_addChild tree c "registers" (hne "registers" (by decide))
    have g_size := getChild_addChild tree c "size" (hne "size" (by decide))
    have g_acc := getChild_addChild tree c "access" (hne "access" (by decide))
    have g_prot := getChild_addChild tree c "protection" (hne "protection" (by decide))
    have g_rv := getChild_addChild tree c "resetValue" (hne "resetValue" (by decide))
    have g_rm := getChild_addChild tree c "resetMask" (hne "resetMask" (by decide))
    have e_fil : (addChild tree c).children.filter (fun t => t.name == "interrupt") =
        tree.children.filter (fun t => t.name == "interrupt") := by
      unfold addChild
      simp [List.filter_append, hne "interrupt" (by decide)]
    have e_int : parseInterrupts (addChild tree c) = parseInterrupts tree := by
      unfold parseInterrupts
      rw [e_fil]
    have e_ab : parse_optional_address_block (addChild tree c) =
        parse_optional_address_block tree := by
      unfold parse_optional_address_block
      rw [g_ab]
    have e_rp : RegisterProperties.parse (addChild tree c) = RegisterProperties.parse tree := by
      unfold RegisterProperties.parse get_child_u32_opt parse_access_opt get_child_text_opt
      rw [g_size, g_acc, g_prot, g_rv, g_rm]
    have e_regs : parseRegisters (addChild tree c) = parseRegisters tree := by
      unfold parseRegisters
      rw [g_regs]
    have e_version : get_child_text_opt (addChild tree c) "version" =
        get_child_text_opt tree "version" := by
      unfold get_child_text_opt
      rw [g_version]
    have e_dn : get_child_text_opt (addChild tree c) "displayName" =
        get_child_text_opt tree "displayName" := by
      unfold get_child_text_opt
      rw [g_dn]
    have e_gn : get_child_text_opt (addChild tree c) "groupName" =
        get_child_text_opt tree "groupName" := by
      unfold get_child_text_opt
      rw [g_gn]
    have e_desc : get_child_text_opt (addChild tree c) "description" =
        get_child_text_opt tree "description" := by
      unfold get_child_text_opt
      rw [g_desc]
    constructor
    · intro h
      obtain ⟨htag, name, ba, ab, ints, rp, regs, hname, hba, hab, hints, hrp, hregs, hp⟩ :=
        Peripheral.parse_ok_fields _ p h
      have htag' : tree.name = "peripheral" := htag
      have hname' : get_child_text tree "name" = .ok name :=
        (get_child_text_ok_iff g_name name).mp hname
      have hba' : get_child_u32 tree "baseAddress" = .ok ba :=
        (get_child_u32_ok_iff g_ba ba).mp hba
      have h2 := Peripheral.parse_ok_intro tree name ba ab ints rp regs htag' hname' hba'
        (e_ab ▸ hab) (e_int ▸ hints) (e_rp ▸ hrp) (e_regs ▸ hregs)
      rw [hp, h2, ← e_version, ← e_dn, ← e_gn, ← e_desc]
      rfl
    · intro h
      obtain ⟨htag, name, ba, ab, ints, rp, regs, hname, hba, hab, hints, hrp, hregs, hp⟩ :=
        Peripheral.parse_ok_fields _ p h
      have htag' : (addChild tree c).name = "peripheral" := htag
      have hname' : get_child_text (addChild tree c) "name" = .ok name :=
        (get_child_text_ok_iff g_name name).mpr hname
      have hba' : get_child_u32 (addChild tree c) "baseAddress" = .ok ba :=
        (get_child_u32_ok_iff g_ba ba).mpr hba
      have h2 := Peripheral.parse_ok_intro (addChild tree c) name ba ab ints rp regs htag'
        hname' hba' (e_ab.trans hab) (e_int.trans hints) (e_rp.trans hrp) (e_regs.trans hregs)
      rw [hp, h2, e_version, e_dn, e_gn, e_desc]
      rfl
  · intro tree p r h hr ch hch
    obtain ⟨htag, name, ba, ab, ints, rp, regs, hname, hba, hab, hints, hrp, hregs, hp⟩ :=
      Peripheral.parse_ok_fields tree p h
    unfold parseRegisters at hregs
    rw [hr] at hregs
    obtain ⟨rs, hrs⟩ : ∃ rs, RegisterCluster.parseList r.children = .ok rs := by
      cases hpl : RegisterCluster.parseList r.children with
      | error e =>
        simp only [hpl] at hregs
        exact absurd hregs (by simp)
      | ok rs2 => exact ⟨rs2, rfl⟩
    exact parseList_ok_forall r.children rs hrs ch hch

/-- A child with an unrecognized tag. -/
def fluffChild : Element := new_element "fluff" (some "?")

/-- A well-formed `<register>` node. -/
def exReg : Element :=
  { name := "register", attributes := [],
    children := [new_element "name" (some "CTRL"),
                 new_element "addressOffset" (some "0x0")],
    text := none }

/-- A `<registers>` node holding one register. -/
def regsNode1 : Element :=
  { name := "registers", attributes := [], children := [exReg], text := none }

/-- A `<peripheral>` node with a one-register `<registers>` child. -/
def exTree5 : Element :=
  { name := "peripheral", attributes := [],
    children := [new_element "name" (some "TIMER2"),
                 new_element "baseAddress" (some "0x50000000"), regsNode1],
    text := none }

/-- The peripheral `exTree5` parses to. -/
def exPeriph5 : Peripheral :=
  { name := "TIMER2", version := none, display_name := none, group_name := none,
    description := none, base_address := 1342177280, address_block := none,
    interrupt := [], default_register_properties := {},
    registers := some [.register "CTRL" 0], derived_from := none }

/-- Evaluating the register-cluster collection on the singleton list. -/
theorem parseList_exReg :
    RegisterCluster.parseList [exReg] = .ok [.register "CTRL" 0] := by
  rw [RegisterCluster.parseList, RegisterCluster.parseList, RegisterCluster.parseE]
  rfl

/-- Evaluating the registers branch on `exTree5`. -/
theorem parseRegisters_exTree5 :
    parseRegisters exTree5 = .ok (some [.register "CTRL" 0]) := by
  unfold parseRegisters
  have h : getChild exTree5 "registers" =
      some { name := "registers", attributes := [], children := [exReg], text := none } := rfl
  rw [h]
  dsimp only
  rw [parseList_exReg]

/-- `exTree5` parses successfully to `exPeriph5`. -/
theorem parse_exTree5 : Peripheral.parse exTree5 = .ok exPeriph5 :=
  Peripheral.parse_ok_intro exTree5 "TIMER2" 1342177280 none [] {}
    (some [.register "CTRL" 0]) rfl rfl rfl rfl rfl rfl parseRegisters_exTree5

/-- C10 witness: appending an unrecognized `fluff` child to `exTree1`
leaves the parsed peripheral unchanged, and the register child of
`exTree5`'s `<registers>` node parsed successfully. -/
theorem unrecognized_children_ignored_witness :
  Peripheral.parse (addChild exTree1 fluffChild) = .ok exPeriph1 ∧
  (RegisterCluster.parseE exReg).isOk = true :=
  ⟨(unrecognized_children_ignored.1 exTree1 fluffChild exPeriph1 (by decide)).mpr (by rfl),
   unrecognized_children_ignored.2 exTree5 exPeriph5 regsNode1 parse_exTree5 rfl exReg
     (by simp [regsNode1])⟩
